import Mathlib

/-!
Shallow embedding of `src/gui/js/main.js` of the LCD-Screenshot repository.

The file models the request-orchestration core of the browser client:
the generic transport `doAjax`, the debounced refresh controller
`refreshLCD` (via an event model of its timer), the refresh completion
handler `refreshLCDHandler`, the save operation `saveScreenshot` and its
inline completion callback, and the DOM/JSON values they manipulate.

Modelling conventions:
- JavaScript objects that flow into request bodies become association
  lists of string keys and `JsonVal` values; property assignment keeps
  JavaScript semantics (overwrite in place, else append).
- The DOM is a partial map from element id to its `innerHTML` string;
  `document.getElementById` is lookup, assignment to `innerHTML` is update.
- Host globals (`window.token`, availability of an XHR object) live in `Env`.
- A JavaScript throw (e.g. dereferencing `null`) is `Except.error`;
  normal completion is `Except.ok`.
- `JSON.parse` is a host primitive; the refresh handler takes both the raw
  `responseText` string (whose truthiness the code tests) and the value
  `JSON.parse` would produce on it, as an `Except` (`.error` = parse throw).
-/

namespace LCDScreenshot

/-- JSON values of the shapes this program actually builds: strings (the
token, svg markup) and arrays of strings (the input lines). -/
inductive JsonVal where
  | str : String → JsonVal
  | arrStr : List String → JsonVal
  deriving DecidableEq, Repr

/-- JavaScript object property assignment on an association list:
overwrites the value of an existing key in place, otherwise appends the
new key at the end (JavaScript property insertion order). -/
def assocSet {α : Type} : List (String × α) → String → α → List (String × α)
  | [], k, v => [(k, v)]
  | (k₀, v₀) :: rest, k, v =>
      if k₀ = k then (k, v) :: rest else (k₀, v₀) :: assocSet rest k v

/-- JavaScript object property read on an association list. -/
def assocGet {α : Type} : List (String × α) → String → Option α
  | [], _ => none
  | (k₀, v₀) :: rest, k => if k₀ = k then some v₀ else assocGet rest k

/-- Host-environment globals visible to `main.js`: the process-wide
`window.token` credential and whether the host offers an asynchronous
transport object (`XMLHttpRequest` or `ActiveXObject`), i.e. whether
`getHttpRequestObject` returns a non-false value. -/
structure Env where
  token : JsonVal
  hasXhr : Bool
  deriving DecidableEq, Repr

/-- The two completion callbacks `main.js` wires to
`onreadystatechange`: `refreshLCDHandler` and the anonymous callback
inside `saveScreenshot`. -/
inductive HandlerTag where
  | refreshHandlerTag
  | saveHandlerTag
  deriving DecidableEq, Repr

/-- An outbound request as configured by `doAjax`: target URL, method,
the headers set with `setRequestHeader`, the JSON body passed to `send`
(after the token was merged in), and the wired completion callback. -/
structure AjaxRequest where
  url : String
  method : String
  headers : List (String × String)
  body : List (String × JsonVal)
  onreadystatechange : Option HandlerTag
  deriving DecidableEq, Repr

/-- Everything observable about one `doAjax` call: the issued request
(`none` if the call aborted), the `alert` messages shown, whether the
call returned the explicit `false` (its only non-undefined return), and
the state of the caller-supplied `data` object after the call (the code
mutates it). -/
structure AjaxOutcome where
  request : Option AjaxRequest
  alerts : List String
  retFalse : Bool
  data : List (String × JsonVal)
  deriving DecidableEq, Repr

/-- The `method = method || "GET"` defaulting in `doAjax`: an omitted or
empty (falsy) method becomes `"GET"`. -/
def defaultMethod (method? : Option String) : String :=
  match method? with
  | none => "GET"
  | some m => if m = "" then "GET" else m

/-- `doAjax(url, method, responseHandler, data)` from `main.js`.
`none` for an argument models passing `undefined`/omitting it; the code
defaults `url` to `""`, `method` to `"GET"` and `data` to `{}` via `||`,
then sets `data.token = window.token` BEFORE any check. A blank URL
aborts with an alert and returns `false`; a missing transport object
aborts with an alert; otherwise the request is opened, a JSON
content-type header is set for POST, the handler is wired and the
serialized data is sent. -/
def doAjax (env : Env) (url? method? : Option String)
    (responseHandler : Option HandlerTag)
    (data? : Option (List (String × JsonVal))) : AjaxOutcome :=
  let url := url?.getD ""
  let method := defaultMethod method?
  let data := assocSet (data?.getD []) "token" env.token
  if url = "" then
    { request := none
      alerts := ["URL can not be null/blank"]
      retFalse := true
      data := data }
  else if env.hasXhr then
    { request := some
        { url := url
          method := method
          headers :=
            if method = "POST" then [("Content-Type", "application/json")] else []
          body := data
          onreadystatechange := responseHandler }
      alerts := []
      retFalse := false
      data := data }
  else
    { request := none
      alerts := ["Please use browser with Ajax support.!"]
      retFalse := false
      data := data }

/-- The DOM fragment this code touches: a map from element id to the
element's `innerHTML`; an absent id means `getElementById` yields `null`. -/
abbrev Dom := List (String × String)

/-- `document.getElementById`, restricted to the `innerHTML`/`value`
content this code reads and writes. -/
def getElementById (dom : Dom) (id : String) : Option String :=
  assocGet dom id

/-- Assignment to an element's `innerHTML`. -/
def setInnerHTML (dom : Dom) (id : String) (html : String) : Dom :=
  assocSet dom id html

/-- User-visible or console side effects a handler can produce. -/
inductive Effect where
  | alertEff : String → Effect
  | consoleError : String → Effect
  deriving DecidableEq, Repr

/-- Splitting a character list at every newline character, preserving
empty pieces; the result is always nonempty (`[] ↦ [""]`). -/
def splitNewlines : List Char → List String
  | [] => [""]
  | c :: cs =>
    match splitNewlines cs with
    | [] => [""]
    | s :: ss =>
      if c = '\n' then "" :: s :: ss
      else String.mk (c :: s.data) :: ss

/-- `getTextInputAsLines` from `main.js`: splits the value of the
`text-input` element on `"\n"` (JavaScript `String.prototype.split` with
the one-character separator `"\n"`: every newline separates, empty pieces
are preserved, and the empty string splits to `[""]`). `text` stands for
the element's current value. -/
def getTextInputAsLines (text : String) : List String :=
  splitNewlines text.data

/-- The parsed shape of a refresh success response, `{"result": string}`.
Claims quantify only over responses carrying a string `result` field, so
only that shape is represented. -/
structure RefreshResponse where
  result : String
  deriving DecidableEq, Repr

/-- `refreshLCDHandler` from `main.js`, as a function of the transport
state it reads (`readyState`, `status`, `responseText`), the outcome
`parsed` that `JSON.parse(responseText)` would produce if invoked, and
the DOM. Returns the new DOM and emitted effects, or `Except.error` for
an uncaught throw. The code returns immediately unless
`readyState === 4 && status === 200`, does nothing when `responseText`
is falsy (the empty string), parses it otherwise, logs and returns if the
`lcd-screenshot-content` element is missing, and else injects
`response.result` into that element's `innerHTML`. -/
def refreshLCDHandler (readyState status : Nat) (responseText : String)
    (parsed : Except String RefreshResponse) (dom : Dom) :
    Except String (Dom × List Effect) :=
  if readyState ≠ 4 ∨ status ≠ 200 then
    .ok (dom, [])
  else if responseText = "" then
    .ok (dom, [])
  else
    match parsed with
    | .error e => .error e
    | .ok response =>
      match getElementById dom "lcd-screenshot-content" with
      | none =>
          .ok (dom,
            [.consoleError
              "Could not find element with id \x27lcd-screenshot-content\x27"])
      | some _ =>
          .ok (setInnerHTML dom "lcd-screenshot-content" response.result, [])

/-- The anonymous completion callback inside `saveScreenshot`: alerts an
error message built from `status` and `statusText` whenever the state is
not `readyState === 4 && status === 200`, and alerts success otherwise.
JavaScript number-to-string coercion of `status` is decimal `toString`. -/
def saveScreenshotHandler (readyState status : Nat) (statusText : String) :
    List Effect :=
  if readyState ≠ 4 ∨ status ≠ 200 then
    [.alertEff ("Error saving screenshot " ++ toString status ++ ": " ++ statusText)]
  else
    [.alertEff "Screenshot saved successfully!"]

/-- `saveScreenshot` from `main.js`: reads
`document.getElementById("lcd-screenshot-content").innerHTML` with no
null guard — if the element is missing the property access throws a
`TypeError` — and otherwise calls `doAjax` on `/save/screenshot` with
method POST, the inline save callback, and `{"svg-data": innerHTML}`. -/
def saveScreenshot (env : Env) (dom : Dom) : Except String AjaxOutcome :=
  match getElementById dom "lcd-screenshot-content" with
  | none => .error "TypeError: cannot read innerHTML of null"
  | some content =>
      .ok (doAjax env (some "/save/screenshot") (some "POST")
            (some .saveHandlerTag) (some [("svg-data", .str content)]))

/-- Whether a JavaScript computation threw. -/
def threw {α : Type} : Except String α → Bool
  | .error _ => true
  | .ok _ => false

/-- The debounce quiet period hardcoded in `refreshLCD` (`duration = 500` ms). -/
def quietPeriod : Nat := 500

/-- The transport call made when a debounce timer set by `refreshLCD`
fires, with `text` the value of the `text-input` element at fire time:
`doAjax("/refresh/lcd", "POST", refreshLCDHandler, {"input-data": lines})`. -/
def fireRefresh (env : Env) (text : String) : AjaxOutcome :=
  doAjax env (some "/refresh/lcd") (some "POST") (some .refreshHandlerTag)
    (some [("input-data", .arrStr (getTextInputAsLines text))])

/-- Event model of the debounced refresh controller. An event `(t, v)` is
a call to `refreshLCD` at time `t` with the `text-input` value equal to
`v` from that moment until the next event. Each call clears the pending
timer, if any, and schedules a new one for `t + quietPeriod`; a timer set
at `t` therefore fires exactly when no further event occurs before
`t + quietPeriod`, and it then captures the current input value. The
result lists the transport calls actually fired, in order. Times are
assumed nondecreasing (events are a chronological trace). -/
def firedRequests (env : Env) : List (Nat × String) → List AjaxOutcome
  | [] => []
  | (t, v) :: rest =>
    match rest with
    | [] => [fireRefresh env v]
    | (t', _) :: _ =>
      if t + quietPeriod ≤ t' then
        fireRefresh env v :: firedRequests env rest
      else
        firedRequests env rest

/-- A concrete environment used by concrete evaluations: token `"tok"`,
transport available. -/
def envEx : Env :=
  { token := .str "tok", hasXhr := true }

/-- The concrete request produced by
`doAjax(envEx, "/refresh/lcd", "POST", refreshLCDHandler, {"input-data": ["HELLO"]})`. -/
def reqEx : AjaxRequest :=
  { url := "/refresh/lcd", method := "POST"
    headers := [("Content-Type", "application/json")]
    body := [("input-data", .arrStr ["HELLO"]), ("token", .str "tok")]
    onreadystatechange := some .refreshHandlerTag }

/-- The concrete request produced by `doAjax(envEx, "/x")` with the
method, handler and data omitted. -/
def reqExGet : AjaxRequest :=
  { url := "/x", method := "GET", headers := []
    body := [("token", .str "tok")], onreadystatechange := none }

/-! ## Helper lemmas about association-list reads and writes -/

theorem assocGet_assocSet {α : Type} (l : List (String × α)) (k : String) (v : α) :
    assocGet (assocSet l k v) k = some v := by
  induction l with
  | nil => simp [assocSet, assocGet]
  | cons p rest ih =>
    obtain ⟨k₀, v₀⟩ := p
    by_cases h : k₀ = k <;> simp [assocSet, assocGet, h, ih]

theorem assocGet_assocSet_ne {α : Type} (l : List (String × α)) (k k' : String)
    (v : α) (h : k' ≠ k) :
    assocGet (assocSet l k v) k' = assocGet l k' := by
  induction l with
  | nil => simp [assocSet, assocGet, Ne.symm h]
  | cons p rest ih =>
    obtain ⟨k₀, v₀⟩ := p
    by_cases hk : k₀ = k
    · subst hk
      simp [assocSet, assocGet, Ne.symm h]
    · by_cases hk' : k₀ = k' <;> simp [assocSet, assocGet, hk, hk', ih, h]

/-- In a burst — every event strictly less than `quietPeriod` after its
predecessor — every timer but the last is cleared, so exactly the last
event's timer fires, capturing the input value after the last event. -/
theorem firedRequests_burst (env : Env) :
    ∀ (events : List (Nat × String)) (hne : events ≠ []),
      events.Chain' (fun a b => b.1 < a.1 + quietPeriod) →
      firedRequests env events = [fireRefresh env (events.getLast hne).2]
  | [], hne, _ => absurd rfl hne
  | [_], _, _ => by simp [firedRequests]
  | e :: e' :: rest, _, hb => by
      rw [List.chain'_cons] at hb
      have hlt : ¬ (e.1 + quietPeriod ≤ e'.1) := not_le.mpr hb.1
      have h2 : firedRequests env (e :: e' :: rest) = firedRequests env (e' :: rest) := by
        simp [firedRequests, hlt]
      rw [h2, List.getLast_cons (List.cons_ne_nil e' rest)]
      exact firedRequests_burst env (e' :: rest) (List.cons_ne_nil e' rest) hb.2

/-! ## Claim theorems -/

/-- C3: for every call to `doAjax` with an empty or blank url (omitted, or
defaulting to the empty string), no request is issued, the
"URL can not be null/blank" alert is shown, and the call returns `false`. -/
theorem doAjax_blank_url_aborts (env : Env) (url? method? : Option String)
    (handler : Option HandlerTag) (data? : Option (List (String × JsonVal)))
    (h : url?.getD "" = "") :
    (doAjax env url? method? handler data?).request = none ∧
    (doAjax env url? method? handler data?).alerts = ["URL can not be null/blank"] ∧
    (doAjax env url? method? handler data?).retFalse = true := by
  simp [doAjax, h]

/-- Witness for C3 at a concrete input: `doAjax` with an omitted url. -/
theorem doAjax_blank_url_aborts_witness :
    (doAjax envEx none none none none).request = none ∧
    (doAjax envEx none none none none).alerts = ["URL can not be null/blank"] ∧
    (doAjax envEx none none none none).retFalse = true :=
  doAjax_blank_url_aborts envEx none none none none rfl

/-- C4 counterexample: a call aborted by the blank-URL check has already
mutated the caller-supplied `data` object — `data.token = window.token`
runs before any check — so caller-visible state is NOT left unchanged. -/
theorem doAjax_abort_mutates_caller_data :
    (doAjax envEx none none none (some [("svg-data", JsonVal.str "x")])).data ≠
      [("svg-data", JsonVal.str "x")] := by decide

/-- C4 (amended): an aborted `doAjax` call (blank URL or no transport
capability) issues no network request, but it does mutate the
caller-supplied `data` object: the current token is merged into it before
the checks run. -/
theorem doAjax_abort_no_request_token_merged (env : Env) (url? method? : Option String)
    (handler : Option HandlerTag) (d : List (String × JsonVal))
    (h : url?.getD "" = "" ∨ env.hasXhr = false) :
    (doAjax env url? method? handler (some d)).request = none ∧
    (doAjax env url? method? handler (some d)).data = assocSet d "token" env.token := by
  rcases h with h | h
  · simp [doAjax, h]
  · by_cases hu : url?.getD "" = ""
    · simp [doAjax, hu]
    · simp [doAjax, hu, h]

/-- Witness for the amended C4 at a concrete input: omitted url. -/
theorem doAjax_abort_no_request_token_merged_witness :
    (doAjax envEx none none none (some [("a", JsonVal.str "b")])).request = none ∧
    (doAjax envEx none none none (some [("a", JsonVal.str "b")])).data =
      assocSet [("a", JsonVal.str "b")] "token" envEx.token :=
  doAjax_abort_no_request_token_merged envEx none none none
    [("a", JsonVal.str "b")] (Or.inl rfl)

/-- C2: the save completion callback alerts an error on EVERY invocation
whose state is not (readyState 4, status 200) — including non-terminal
readiness states of a request that is succeeding — contradicting the
claim that non-terminal readiness-state changes produce no user-visible
notification. Here: readyState 3 (LOADING), status already 200. -/
theorem saveScreenshotHandler_alerts_nonterminal :
    saveScreenshotHandler 3 200 "OK" =
      [Effect.alertEff "Error saving screenshot 200: OK"] := rfl

/-- C6: the refresh completion handler is observably silent — same DOM, no
effects, no throw — on every invocation whose transport state is not
(readyState 4, status 200). -/
theorem refreshLCDHandler_silent_unless_success (readyState status : Nat)
    (responseText : String) (parsed : Except String RefreshResponse) (dom : Dom)
    (h : ¬(readyState = 4 ∧ status = 200)) :
    refreshLCDHandler readyState status responseText parsed dom = .ok (dom, []) := by
  have h' : readyState ≠ 4 ∨ status ≠ 200 := by tauto
  unfold refreshLCDHandler
  rw [if_pos h']

/-- Witness for C6 at a concrete input: readyState 3, status 200. -/
theorem refreshLCDHandler_silent_unless_success_witness :
    refreshLCDHandler 3 200 "body" (Except.ok ⟨"r"⟩) [] = Except.ok ([], []) :=
  refreshLCDHandler_silent_unless_success 3 200 "body" (Except.ok ⟨"r"⟩) [] (by decide)

/-- C10: in the terminal success state but with an empty (falsy)
`responseText`, the refresh handler leaves the DOM unchanged, emits
nothing and never consults the JSON parse — the result is `ok` even when
`JSON.parse` would have thrown. -/
theorem refreshLCDHandler_empty_response_noop (parsed : Except String RefreshResponse)
    (dom : Dom) :
    refreshLCDHandler 4 200 "" parsed dom = .ok (dom, []) := by
  simp [refreshLCDHandler]

/-- C1: for every nonempty burst of `refreshLCD` calls in which each event
follows its predecessor by strictly less than the 500 ms quiet period,
exactly one refresh request is issued: a POST to `/refresh/lcd` wired to
`refreshLCDHandler`, whose `input-data` payload is the line-split of the
text-input value captured at fire time, which is the value after the last
event of the burst. -/
theorem refreshLCD_burst_single_request (env : Env) (events : List (Nat × String))
    (hne : events ≠ [])
    (hburst : events.Chain' (fun a b => b.1 < a.1 + quietPeriod))
    (hx : env.hasXhr = true) :
    firedRequests env events = [fireRefresh env (events.getLast hne).2] ∧
    ∃ r, (fireRefresh env (events.getLast hne).2).request = some r ∧
      r.url = "/refresh/lcd" ∧ r.method = "POST" ∧
      r.onreadystatechange = some HandlerTag.refreshHandlerTag ∧
      assocGet r.body "input-data" =
        some (JsonVal.arrStr (getTextInputAsLines (events.getLast hne).2)) := by
  refine ⟨firedRequests_burst env events hne hburst, ?_⟩
  refine ⟨{ url := "/refresh/lcd", method := "POST"
            headers := [("Content-Type", "application/json")]
            body := [("input-data",
                      JsonVal.arrStr (getTextInputAsLines (events.getLast hne).2)),
                     ("token", env.token)]
            onreadystatechange := some HandlerTag.refreshHandlerTag },
          ?_, rfl, rfl, rfl, ?_⟩
  · simp [fireRefresh, doAjax, defaultMethod, hx, assocSet]
  · simp [assocGet]

/-- Witness for C1 at a concrete input: two events 100 ms apart with
values "A" then "AB" collapse into one request carrying the line-split
of "AB". -/
theorem refreshLCD_burst_single_request_witness :
    firedRequests envEx [(0, "A"), (100, "AB")] = [fireRefresh envEx "AB"] ∧
    ∃ r, (fireRefresh envEx "AB").request = some r ∧
      r.url = "/refresh/lcd" ∧ r.method = "POST" ∧
      r.onreadystatechange = some HandlerTag.refreshHandlerTag ∧
      assocGet r.body "input-data" =
        some (JsonVal.arrStr (getTextInputAsLines "AB")) :=
  refreshLCD_burst_single_request envEx [(0, "A"), (100, "AB")]
    (by decide) (by simp [List.chain'_cons, quietPeriod]) rfl

/-- C5 counterexample: with no `lcd-screenshot-content` element in the
DOM, `saveScreenshot` throws (it reads `.innerHTML` off the `null` that
`getElementById` returned) instead of degrading to a logged no-op. -/
theorem saveScreenshot_throws_without_element :
    threw (saveScreenshot envEx []) = true := rfl

/-- C5 (amended): when the `lcd-screenshot-content` element is missing,
the refresh completion handler (reaching its DOM lookup: terminal success
state, nonempty body, parse succeeded) logs a console error, mutates
nothing and does not throw; `saveScreenshot`, by contrast, has no guard
and throws. -/
theorem missing_dom_target_refresh_logs_save_throws (env : Env)
    (responseText : String) (resp : RefreshResponse) (dom : Dom)
    (hne : responseText ≠ "")
    (hmiss : getElementById dom "lcd-screenshot-content" = none) :
    refreshLCDHandler 4 200 responseText (.ok resp) dom =
      .ok (dom, [.consoleError
        "Could not find element with id \x27lcd-screenshot-content\x27"]) ∧
    threw (saveScreenshot env dom) = true := by
  constructor
  · simp [refreshLCDHandler, hne, hmiss]
  · simp [saveScreenshot, hmiss, threw]

/-- Witness for the amended C5 at a concrete input: the empty DOM. -/
theorem missing_dom_target_refresh_logs_save_throws_witness :
    refreshLCDHandler 4 200 "x" (.ok ⟨"r"⟩) [] =
      .ok ([], [.consoleError
        "Could not find element with id \x27lcd-screenshot-content\x27"]) ∧
    threw (saveScreenshot envEx []) = true :=
  missing_dom_target_refresh_logs_save_throws envEx "x" ⟨"r"⟩ []
    (by decide) rfl

/-- C7: for every refresh success response (terminal state, nonempty
body) whose JSON body has result field `R`, when the preview container
exists the handler rewrites exactly that container, and its content
afterwards is exactly `R`, unmodified. -/
theorem refreshLCDHandler_injects_result_verbatim (R responseText cur : String)
    (dom : Dom)
    (hne : responseText ≠ "")
    (hel : getElementById dom "lcd-screenshot-content" = some cur) :
    refreshLCDHandler 4 200 responseText (.ok ⟨R⟩) dom =
      .ok (setInnerHTML dom "lcd-screenshot-content" R, []) ∧
    getElementById (setInnerHTML dom "lcd-screenshot-content" R)
      "lcd-screenshot-content" = some R := by
  constructor
  · simp [refreshLCDHandler, hne, hel]
  · exact assocGet_assocSet dom "lcd-screenshot-content" R

/-- Witness for C7 at a concrete input. -/
theorem refreshLCDHandler_injects_result_verbatim_witness :
    refreshLCDHandler 4 200 "resp" (.ok ⟨"<svg>X</svg>"⟩)
        [("lcd-screenshot-content", "old")] =
      .ok (setInnerHTML [("lcd-screenshot-content", "old")]
            "lcd-screenshot-content" "<svg>X</svg>", []) ∧
    getElementById (setInnerHTML [("lcd-screenshot-content", "old")]
        "lcd-screenshot-content" "<svg>X</svg>") "lcd-screenshot-content" =
      some "<svg>X</svg>" :=
  refreshLCDHandler_injects_result_verbatim "<svg>X</svg>" "resp" "old"
    [("lcd-screenshot-content", "old")] (by decide) rfl

/-- C8: every request `doAjax` actually issues carries the current token
merged into the caller's body (all other keys unchanged); the method
defaults to GET when omitted; and a POST request carries the JSON
content-type header. -/
theorem doAjax_issued_request_shape (env : Env) (url? method? : Option String)
    (handler : Option HandlerTag) (data? : Option (List (String × JsonVal)))
    (r : AjaxRequest)
    (h : (doAjax env url? method? handler data?).request = some r) :
    assocGet r.body "token" = some env.token ∧
    (∀ k, k ≠ "token" → assocGet r.body k = assocGet (data?.getD []) k) ∧
    (method? = none → r.method = "GET") ∧
    (r.method = "POST" → r.headers = [("Content-Type", "application/json")]) := by
  unfold doAjax at h
  by_cases hu : url?.getD "" = ""
  · simp [hu] at h
  · by_cases hx : env.hasXhr
    · simp only [hu, hx, if_true, if_false, reduceIte, Option.some.injEq] at h
      subst h
      refine ⟨assocGet_assocSet _ "token" env.token,
              fun k hk => assocGet_assocSet_ne _ "token" k env.token hk, ?_, ?_⟩
      · intro hm
        subst hm
        rfl
      · intro hp
        split
        · rfl
        · rename_i hcond
          exact absurd hp hcond
    · simp [hu, hx] at h

/-- Witness for C8 at concrete inputs: one POST call with a body and one
call with the method omitted. -/
theorem doAjax_issued_request_shape_witness :
    assocGet reqEx.body "token" = some envEx.token ∧
    reqEx.headers = [("Content-Type", "application/json")] ∧
    reqExGet.method = "GET" :=
  ⟨(doAjax_issued_request_shape envEx (some "/refresh/lcd") (some "POST")
      (some .refreshHandlerTag) (some [("input-data", .arrStr ["HELLO"])])
      reqEx (by decide)).1,
   (doAjax_issued_request_shape envEx (some "/refresh/lcd") (some "POST")
      (some .refreshHandlerTag) (some [("input-data", .arrStr ["HELLO"])])
      reqEx (by decide)).2.2.2 rfl,
   (doAjax_issued_request_shape envEx (some "/x") none none none
      reqExGet (by decide)).2.2.1 rfl⟩

/-- C9: for every activation of the save operation while the preview
container exists, the issued request is a POST to `/save/screenshot`
wired to the save callback, whose body is exactly
`svg-data ↦ the container's innerHTML at activation time` plus the token
— the rendered markup, not the raw text input. -/
theorem saveScreenshot_snapshots_rendered_markup (env : Env) (dom : Dom)
    (content : String)
    (hel : getElementById dom "lcd-screenshot-content" = some content)
    (hx : env.hasXhr = true) :
    ∃ o r, saveScreenshot env dom = .ok o ∧ o.request = some r ∧
      r.url = "/save/screenshot" ∧ r.method = "POST" ∧
      r.onreadystatechange = some HandlerTag.saveHandlerTag ∧
      r.body = [("svg-data", JsonVal.str content), ("token", env.token)] := by
  refine ⟨doAjax env (some "/save/screenshot") (some "POST")
            (some .saveHandlerTag) (some [("svg-data", .str content)]),
          { url := "/save/screenshot", method := "POST"
            headers := [("Content-Type", "application/json")]
            body := [("svg-data", JsonVal.str content), ("token", env.token)]
            onreadystatechange := some HandlerTag.saveHandlerTag },
          ?_, ?_, rfl, rfl, rfl, rfl⟩
  · simp [saveScreenshot, hel]
  · simp [doAjax, defaultMethod, hx, assocSet]

/-- Witness for C9 at a concrete input. -/
theorem saveScreenshot_snapshots_rendered_markup_witness :
    ∃ o r, saveScreenshot envEx [("lcd-screenshot-content", "<svg>X</svg>")] = .ok o ∧
      o.request = some r ∧
      r.url = "/save/screenshot" ∧ r.method = "POST" ∧
      r.onreadystatechange = some HandlerTag.saveHandlerTag ∧
      r.body = [("svg-data", JsonVal.str "<svg>X</svg>"),
                ("token", envEx.token)] :=
  saveScreenshot_snapshots_rendered_markup envEx
    [("lcd-screenshot-content", "<svg>X</svg>")] "<svg>X</svg>" rfl rfl

end LCDScreenshot
